import Mathlib

/-!
Verification development for the ShaggyDog progressive image-transformation
pipeline (`generate_transformation.py`, `analyze_dog_breed.py`).

The Python code is shallowly embedded: remote calls (`client.responses.create`)
become an oracle function passed explicitly, the filesystem becomes an explicit
`FS` state, bytes become `List Nat` with values below 256, base64 becomes an
executable encoder/decoder over those, and raised exceptions become `Except`
errors.  Console `print` calls have no semantic effect and are not modelled.
Each embedded function also returns the list of requests it issued to the
remote endpoint, in order, so that sequencing and no-retry properties can be
stated.
-/

set_option maxRecDepth 4000

deriving instance DecidableEq for Except

/-! ## Python `str.split()`: split on runs of whitespace, dropping empties -/

/-- Helper for `pySplit`: walk the characters, accumulating the current word
(in reverse) in `acc`; whitespace flushes a non-empty accumulator. -/
def splitWordsAux : List Char → List Char → List String
  | [], acc => if acc = [] then [] else [String.mk acc.reverse]
  | c :: cs, acc =>
    if c.isWhitespace then
      if acc = [] then splitWordsAux cs []
      else String.mk acc.reverse :: splitWordsAux cs []
    else splitWordsAux cs (c :: acc)

/-- Embedding of Python `str.split()` with no arguments: split on runs of
whitespace and never produce empty tokens. -/
def pySplit (s : String) : List String :=
  splitWordsAux s.data []

/-! ## Breed extraction -/

/-- Embedding of `extract_dog_breed` (generate_transformation.py, lines 45-57).
`words[1][0]` is modelled by `head?` on the second word; `none` models the
`IndexError` Python would raise on an empty second token. -/
def extract_dog_breed (breed_description : String) : Option String :=
  match pySplit breed_description with
  | [] => some "dog"
  | [w] => some w
  | w0 :: w1 :: rest =>
    match w1.data.head? with
    | none => none
    | some c =>
      if c.isUpper || (w0 :: w1 :: rest).length = 2 then
        some (w0 ++ " " ++ w1)
      else
        some w0

/-- Whether a token begins with an uppercase letter (used by the reference
algorithm of claim C6). -/
def tokenStartsUpper (w : String) : Bool :=
  match w.data.head? with
  | none => false
  | some c => c.isUpper

/-- The reference extraction algorithm exactly as the claim states it:
split on whitespace; with two or more tokens and (second token uppercase-initial
or exactly two tokens) return the first two tokens joined by one space;
otherwise the first token if any; otherwise the fallback label "dog". -/
def extractBreedSpec (s : String) : String :=
  let toks := pySplit s
  if 2 ≤ toks.length ∧ (tokenStartsUpper (toks.getD 1 "") ∨ toks.length = 2) then
    toks.getD 0 "" ++ " " ++ toks.getD 1 ""
  else
    match toks with
    | [] => "dog"
    | t :: _ => t

/-! ## Base64 over byte lists (Python `base64.b64encode` / `b64decode`) -/

/-- The standard base64 alphabet. -/
def b64Chars : List Char :=
  ['A', 'B', 'C', 'D', 'E', 'F', 'G', 'H', 'I', 'J', 'K', 'L', 'M',
   'N', 'O', 'P', 'Q', 'R', 'S', 'T', 'U', 'V', 'W', 'X', 'Y', 'Z',
   'a', 'b', 'c', 'd', 'e', 'f', 'g', 'h', 'i', 'j', 'k', 'l', 'm',
   'n', 'o', 'p', 'q', 'r', 's', 't', 'u', 'v', 'w', 'x', 'y', 'z',
   '0', '1', '2', '3', '4', '5', '6', '7', '8', '9', '+', '/']

/-- The base64 character for a sextet. -/
def b64CharOf (n : Nat) : Char := b64Chars.getD n 'A'

/-- Position of a character in a list, 0 when absent. -/
def b64IndexAux (c : Char) : List Char → Nat → Nat
  | [], _ => 0
  | d :: ds, i => if d = c then i else b64IndexAux c ds (i + 1)

/-- The sextet value of a base64 character. -/
def b64IndexOf (c : Char) : Nat := b64IndexAux c b64Chars 0

/-- Base64-encode a byte list (bytes are `Nat` values below 256), with the
standard `=` padding. -/
def b64encodeBytes : List Nat → List Char
  | a :: b :: c :: rest =>
      b64CharOf (a / 4) :: b64CharOf (a % 4 * 16 + b / 16) ::
        b64CharOf (b % 16 * 4 + c / 64) :: b64CharOf (c % 64) ::
        b64encodeBytes rest
  | [a, b] => [b64CharOf (a / 4), b64CharOf (a % 4 * 16 + b / 16),
               b64CharOf (b % 16 * 4), '=']
  | [a] => [b64CharOf (a / 4), b64CharOf (a % 4 * 16), '=', '=']
  | [] => []

/-- Base64-decode a character list, honouring `=` padding in the final group. -/
def b64decodeChars : List Char → List Nat
  | c1 :: c2 :: c3 :: c4 :: rest =>
      if c3 = '=' ∧ c4 = '=' then
        [b64IndexOf c1 * 4 + b64IndexOf c2 / 16]
      else if c4 = '=' then
        [b64IndexOf c1 * 4 + b64IndexOf c2 / 16,
         b64IndexOf c2 % 16 * 16 + b64IndexOf c3 / 4]
      else
        (b64IndexOf c1 * 4 + b64IndexOf c2 / 16) ::
          (b64IndexOf c2 % 16 * 16 + b64IndexOf c3 / 4) ::
          (b64IndexOf c3 % 4 * 64 + b64IndexOf c4) ::
          b64decodeChars rest
  | _ => []

/-- `base64.b64encode(data).decode('utf-8')`: bytes to a base64 string. -/
def b64encodeStr (bytes : List Nat) : String := String.mk (b64encodeBytes bytes)

/-- `base64.b64decode(s)`: a base64 string back to bytes. -/
def b64decodeStr (s : String) : List Nat := b64decodeChars s.data

/-! ## Filesystem state -/

/-- Explicit filesystem state: the set of existing directories and a map from
paths to byte contents (most recent write first). -/
structure FS where
  dirs : List String
  files : List (String × List Nat)
deriving DecidableEq

/-- `open(path, "wb").write(content)`: record the file, shadowing any
previous content at the same path. -/
def writeFile (fs : FS) (path : String) (content : List Nat) : FS :=
  { fs with files := (path, content) :: fs.files }

/-- `os.makedirs(d, exist_ok=True)`: create the directory if absent. -/
def makedirs (fs : FS) (d : String) : FS :=
  if d ∈ fs.dirs then fs else { fs with dirs := d :: fs.dirs }

/-- `os.path.join(dir, name)` for a directory path with no trailing slash. -/
def joinPath (dir name : String) : String := dir ++ "/" ++ name

/-- The file-name component of a path: everything after the last slash. -/
def fileNameOf (s : String) : String :=
  String.mk ((s.data.reverse.takeWhile (fun c => c ≠ '/')).reverse)

/-- The destination the pipeline writes a given file name to: the bare name
when no output directory was supplied, otherwise the joined path. -/
def outPath (output_dir : Option String) (name : String) : String :=
  match output_dir with
  | none => name
  | some dir => joinPath dir name

/-- The saving loop of `generate_progressive_images` (lines 187-193 with an
output directory, lines 196-200 without): decode each payload, write it to
`pathOf filename`, and collect the `(written path, original payload)` pairs
in order. -/
def save_files (pathOf : String → String) :
    FS → List (String × String) → FS × List (String × String)
  | fs, [] => (fs, [])
  | fs, (filename, image_base64) :: rest =>
    let filepath := pathOf filename
    let fs1 := writeFile fs filepath (b64decodeStr image_base64)
    let r := save_files pathOf fs1 rest
    (r.1, (filepath, image_base64) :: r.2)

/-! ## Responses API data model -/

/-- One item of a structured response list.  `hasType`/`hasResult` model
Python `hasattr(output, 'type')` / `hasattr(output, 'result')`. -/
structure OutputItem where
  hasType : Bool
  type : String
  hasResult : Bool
  result : String
deriving DecidableEq

/-- The filter used in the three list comprehensions of
`generate_progressive_images`: the item is tagged `image_generation_call`
and carries a `result` attribute. -/
def isImageCall (o : OutputItem) : Bool :=
  o.hasType && o.type == "image_generation_call" && o.hasResult

/-- The list comprehension `[output.result for output in response.output if
hasattr(output, 'type') and output.type == "image_generation_call" and
hasattr(output, 'result')]`. -/
def extractImages (outputs : List OutputItem) : List String :=
  (outputs.filter isImageCall).map OutputItem.result

/-- A response of the remote endpoint: its identifier and its heterogeneous
output-item list. -/
structure Response where
  id : String
  output : List OutputItem
deriving DecidableEq

/-- A generation request as assembled by `client.responses.create` calls in
`generate_progressive_images`. -/
structure Request where
  model : String
  previous_response_id : Option String
  inputText : String
  inputImage : Option String
  toolType : String
  toolAction : String
  input_fidelity : String
deriving DecidableEq

/-- An error escaping `generate_progressive_images`: either an exception
propagated from a `create` call, or the stage-numbered
`Exception(f"Failed to generate image {n}")`. -/
inductive PipeError where
  | fromApi (msg : String)
  | noImage (stage : Nat)
deriving DecidableEq

/-- The message carried by a pipeline error. -/
def PipeError.message : PipeError → String
  | .fromApi m => m
  | .noImage n => "Failed to generate image " ++ toString n

/-- The data-URI wrapper used for the attached image. -/
def dataUri (b64 : String) : String := "data:image/jpeg;base64," ++ b64

/-- Stage 1 prompt (line 81). -/
def prompt1 (dog_breed : String) : String :=
  "Transform this person\x27s face to have very subtle " ++ dog_breed ++
    " dog-like features - slightly more pronounced nose, subtle changes around the eyes and mouth, but maintain the human appearance overall. Keep the same pose, expression, and lighting."

/-- Stage 2 prompt (line 118). -/
def prompt2 (dog_breed : String) : String :=
  "Transform this image to be halfway between human and " ++ dog_breed ++
    " dog - blend human and canine features more prominently. The face should show clear dog characteristics while maintaining some human-like structure. Keep the same pose and composition."

/-- Stage 3 prompt (line 143). -/
def prompt3 (dog_breed : String) : String :=
  "Transform this into a realistic " ++ dog_breed ++
    " dog portrait that maintains the same pose, expression, and composition as the original person. The dog should have the same general facial structure and expression, but as a fully formed " ++
    dog_breed ++ " dog."

/-- The Stage 1 request (lines 84-97): source image attached, no chain
reference, image generation with `action: auto`. -/
def stage1Req (base64_image dog_breed : String) : Request :=
  { model := "gpt-5"
    previous_response_id := none
    inputText := prompt1 dog_breed
    inputImage := some (dataUri base64_image)
    toolType := "image_generation"
    toolAction := "auto"
    input_fidelity := "high" }

/-- The Stage 2 request (lines 120-125): text prompt only, chained to the
Stage 1 response, image generation with `action: edit`. -/
def stage2Req (dog_breed prev_id : String) : Request :=
  { model := "gpt-5"
    previous_response_id := some prev_id
    inputText := prompt2 dog_breed
    inputImage := none
    toolType := "image_generation"
    toolAction := "edit"
    input_fidelity := "high" }

/-- The Stage 3 request (lines 146-151): text prompt only, chained to the
Stage 2 response, image generation with `action: edit`. -/
def stage3Req (dog_breed prev_id : String) : Request :=
  { model := "gpt-5"
    previous_response_id := some prev_id
    inputText := prompt3 dog_breed
    inputImage := none
    toolType := "image_generation"
    toolAction := "edit"
    input_fidelity := "high" }

/-! ## The transformation chain orchestrator -/

/-- Embedding of `generate_progressive_images` (lines 59-201).  The remote
endpoint is the `oracle` argument; `image_data` is the byte content of the
already-read source image; the returned list is the trace of generation
requests issued, in order. -/
def generate_progressive_images (oracle : Request → Except String Response)
    (image_data : List Nat) (dog_breed : String) (output_dir : Option String)
    (fs : FS) :
    List Request × Except PipeError (FS × List (String × String)) :=
  match oracle (stage1Req (b64encodeStr image_data) dog_breed) with
  | .error e =>
    ([stage1Req (b64encodeStr image_data) dog_breed], .error (.fromApi e))
  | .ok response1 =>
    match extractImages response1.output with
    | [] =>
      ([stage1Req (b64encodeStr image_data) dog_breed], .error (.noImage 1))
    | image1_base64 :: _ =>
      match oracle (stage2Req dog_breed response1.id) with
      | .error e =>
        ([stage1Req (b64encodeStr image_data) dog_breed,
          stage2Req dog_breed response1.id], .error (.fromApi e))
      | .ok response2 =>
        match extractImages response2.output with
        | [] =>
          ([stage1Req (b64encodeStr image_data) dog_breed,
            stage2Req dog_breed response1.id], .error (.noImage 2))
        | image2_base64 :: _ =>
          match oracle (stage3Req dog_breed response2.id) with
          | .error e =>
            ([stage1Req (b64encodeStr image_data) dog_breed,
              stage2Req dog_breed response1.id,
              stage3Req dog_breed response2.id], .error (.fromApi e))
          | .ok response3 =>
            match extractImages response3.output with
            | [] =>
              ([stage1Req (b64encodeStr image_data) dog_breed,
                stage2Req dog_breed response1.id,
                stage3Req dog_breed response2.id], .error (.noImage 3))
            | image3_base64 :: _ =>
              let generated_images :=
                [("image1_transition.png", image1_base64),
                 ("image2_transition.png", image2_base64),
                 ("image3_final_dog.png", image3_base64)]
              match output_dir with
              | some dir =>
                let fs1 := makedirs fs dir
                let r := save_files (joinPath dir) fs1 generated_images
                ([stage1Req (b64encodeStr image_data) dog_breed,
                  stage2Req dog_breed response1.id,
                  stage3Req dog_breed response2.id], .ok (r.1, r.2))
              | none =>
                let r := save_files (fun n => n) fs generated_images
                ([stage1Req (b64encodeStr image_data) dog_breed,
                  stage2Req dog_breed response1.id,
                  stage3Req dog_breed response2.id], .ok (r.1, r.2))

/-! ## The breed classifier -/

/-- A classification request as assembled by `analyze_dog_breed`. -/
structure ClassifyRequest where
  model : String
  text : String
  image_url : String
deriving DecidableEq

/-- The fixed classification instruction (both copies of
`analyze_dog_breed`, verbatim). -/
def classifyInstruction : String :=
  "Analyze this human face and determine which specific dog breed this person\x27s facial features, structure, and overall appearance most closely resembles. Consider factors like face shape, eye shape, nose structure, ear position, and overall facial proportions. Respond with just the dog breed name and a brief one-sentence explanation of why."

/-- The classification request for a base64-encoded image. -/
def classifyRequest (base64_image : String) : ClassifyRequest :=
  { model := "gpt-5-mini-2025-08-07"
    text := classifyInstruction
    image_url := dataUri base64_image }

/-- Embedding of `analyze_dog_breed` as defined in
`generate_transformation.py` (lines 13-43): the file read and the remote
call sit in one `try`; any failure is re-raised wrapped as
`Exception(f"Error analyzing dog breed: {e}")`.  The first component is the
trace of classification requests issued. -/
def analyze_dog_breed (readImage : Except String (List Nat))
    (oracle : ClassifyRequest → Except String String) :
    List ClassifyRequest × Except String String :=
  match readImage with
  | .error e => ([], .error ("Error analyzing dog breed: " ++ e))
  | .ok image_data =>
    match oracle (classifyRequest (b64encodeStr image_data)) with
    | .ok t => ([classifyRequest (b64encodeStr image_data)], .ok t)
    | .error e =>
      ([classifyRequest (b64encodeStr image_data)],
       .error ("Error analyzing dog breed: " ++ e))

/-- Embedding of `analyze_dog_breed` as defined in `analyze_dog_breed.py`
(lines 12-42): identical request, but the `except` clause RETURNS the string
`f"Error: {e}"` as a normal value instead of raising. -/
def analyze_dog_breed_standalone (readImage : Except String (List Nat))
    (oracle : ClassifyRequest → Except String String) :
    List ClassifyRequest × String :=
  match readImage with
  | .error e => ([], "Error: " ++ e)
  | .ok image_data =>
    match oracle (classifyRequest (b64encodeStr image_data)) with
    | .ok t => ([classifyRequest (b64encodeStr image_data)], t)
    | .error e => ([classifyRequest (b64encodeStr image_data)], "Error: " ++ e)

/-! ## Concrete fixtures used by witnesses and counterexamples -/

/-- The empty filesystem. -/
def fs0 : FS := { dirs := [], files := [] }

/-- An output item tagged `image_generation_call` carrying the payload. -/
def imgItem (payload : String) : OutputItem :=
  { hasType := true, type := "image_generation_call", hasResult := true,
    result := payload }

/-- An unrelated output item (a reasoning item, say). -/
def otherItem : OutputItem :=
  { hasType := true, type := "reasoning", hasResult := false, result := "" }

/-- A response with identifier `i` and a single valid image item. -/
def respOk (i payload : String) : Response :=
  { id := i, output := [otherItem, imgItem payload] }

/-- A response with no image-generation item at all. -/
def respNoItem (i : String) : Response :=
  { id := i, output := [otherItem] }

/-- A response whose only image-generation item carries an EMPTY payload. -/
def respEmptyPayload (i : String) : Response :=
  { id := i, output := [imgItem ""] }

/-- A response with two valid image items (for claim C10). -/
def respTwo (i p q : String) : Response :=
  { id := i, output := [imgItem p, otherItem, imgItem q] }

/-- Oracle whose every call raises. -/
def oracleAllErr : Request → Except String Response :=
  fun _ => .error "boom"

/-- Oracle: Stage 1 succeeds with no image item. -/
def oracleNoImg1 : Request → Except String Response :=
  fun req =>
    match req.previous_response_id with
    | none => .ok (respNoItem "r1")
    | some _ => .error "unreachable"

/-- Oracle: Stage 1 succeeds, Stage 2 raises. -/
def oracleErr2 : Request → Except String Response :=
  fun req =>
    match req.previous_response_id with
    | none => .ok (respOk "r1" "P1")
    | some _ => .error "boom2"

/-- Oracle: Stage 2 succeeds with no image item. -/
def oracleNoImg2 : Request → Except String Response :=
  fun req =>
    match req.previous_response_id with
    | none => .ok (respOk "r1" "P1")
    | some _ => .ok (respNoItem "r2")

/-- Oracle: Stage 3 raises. -/
def oracleErr3 : Request → Except String Response :=
  fun req =>
    match req.previous_response_id with
    | none => .ok (respOk "r1" "P1")
    | some i => if i = "r1" then .ok (respOk "r2" "P2") else .error "boom3"

/-- Oracle: Stage 3 succeeds with no image item. -/
def oracleNoImg3 : Request → Except String Response :=
  fun req =>
    match req.previous_response_id with
    | none => .ok (respOk "r1" "P1")
    | some i => if i = "r1" then .ok (respOk "r2" "P2") else .ok (respNoItem "r3")

/-- Oracle: all three stages succeed. -/
def oracleAllOk : Request → Except String Response :=
  fun req =>
    match req.previous_response_id with
    | none => .ok (respOk "r1" "P1")
    | some i => if i = "r1" then .ok (respOk "r2" "P2") else .ok (respOk "r3" "P3")

/-- Oracle: every stage returns an image item whose payload is empty. -/
def oracleEmptyPayload : Request → Except String Response :=
  fun req =>
    match req.previous_response_id with
    | none => .ok (respEmptyPayload "r1")
    | some i =>
      if i = "r1" then .ok (respEmptyPayload "r2") else .ok (respEmptyPayload "r3")

/-- Oracle: every stage returns TWO valid image items. -/
def oracleTwoItems : Request → Except String Response :=
  fun req =>
    match req.previous_response_id with
    | none => .ok (respTwo "r1" "P1a" "P1b")
    | some i =>
      if i = "r1" then .ok (respTwo "r2" "P2a" "P2b")
      else .ok (respTwo "r3" "P3a" "P3b")

/-- Classification oracle whose every call raises. -/
def classifyOracleErr : ClassifyRequest → Except String String :=
  fun _ => .error "connection refused"

/-! # Theorems -/

/-! ## Strings: small helpers about `String.data` -/

/-- `(s ++ t).data = s.data ++ t.data` (the definition of `String.append`). -/
theorem strData_append (s t : String) : (s ++ t).data = s.data ++ t.data := by
  cases s; cases t; rfl

/-- Two strings with the same character data are equal. -/
theorem strData_inj {s t : String} (h : s.data = t.data) : s = t := by
  cases s; cases t; exact congrArg String.mk h

/-- Rebuilding a string from its data gives the string back. -/
theorem strMk_data (s : String) : String.mk s.data = s := rfl

/-- A string built from a non-empty character list is not the empty string. -/
theorem strMk_ne_empty (l : List Char) (h : l ≠ []) : String.mk l ≠ "" :=
  fun he => h (congrArg String.data he)

/-- A string is empty exactly when its data is the empty list. -/
theorem str_eq_empty_iff_data (s : String) : s = "" ↔ s.data = [] := by
  constructor
  · intro h; rw [h]
  · intro h; exact strData_inj (by simpa using h)

/-! ## Lemmas about `pySplit` and `extract_dog_breed` -/

/-- Every token produced by `splitWordsAux` is a non-empty string. -/
theorem splitWordsAux_ne_empty :
    ∀ (l acc : List Char) (w : String), w ∈ splitWordsAux l acc → w ≠ "" := by
  intro l
  induction l with
  | nil =>
    intro acc w hw
    by_cases hacc : acc = []
    · simp [splitWordsAux, hacc] at hw
    · simp [splitWordsAux, hacc] at hw
      subst hw
      exact strMk_ne_empty _ (by simpa using hacc)
  | cons c cs ih =>
    intro acc w hw
    by_cases hws : c.isWhitespace
    · by_cases hacc : acc = []
      · simp [splitWordsAux, hws, hacc] at hw
        exact ih [] w hw
      · simp [splitWordsAux, hws, hacc] at hw
        rcases hw with hw | hw
        · subst hw
          exact strMk_ne_empty _ (by simpa using hacc)
        · exact ih [] w hw
    · simp [splitWordsAux, hws] at hw
      exact ih (c :: acc) w hw

/-- Every token produced by `pySplit` is non-empty. -/
theorem pySplit_ne_empty (s : String) (w : String) (hw : w ∈ pySplit s) : w ≠ "" :=
  splitWordsAux_ne_empty s.data [] w hw

/-- `extract_dog_breed` agrees with the reference algorithm of the claim. -/
theorem extract_eq_spec (s : String) :
    extract_dog_breed s = some (extractBreedSpec s) := by
  have hne := pySplit_ne_empty s
  unfold extract_dog_breed extractBreedSpec
  rcases hsp : pySplit s with _ | ⟨w0, ws⟩
  · simp
  · rcases ws with _ | ⟨w1, rest⟩
    · simp
    · have hw1 : w1 ≠ "" := hne w1 (by rw [hsp]; simp)
      have hdata : w1.data ≠ [] := fun h => hw1 (strData_inj (by simpa using h))
      rcases hd : w1.data with _ | ⟨c, cs⟩
      · exact absurd hd hdata
      · have hhead : w1.data.head? = some c := by rw [hd]; rfl
        simp only [hhead, List.getD, List.get?, Option.getD]
        have hts : tokenStartsUpper w1 = c.isUpper := by
          unfold tokenStartsUpper; rw [hhead]
        by_cases hcu : c.isUpper
        · simp [hcu, hts]
        · by_cases hlen : rest = ([] : List String)
          · subst hlen; simp [hcu, hts]
          · have : (w0 :: w1 :: rest).length = 2 ↔ False := by
              simp [List.length_eq_zero, hlen]
            simp [hcu, hts, this, hlen]

/-- The reference algorithm never returns the empty string. -/
theorem extractBreedSpec_ne_empty (s : String) : extractBreedSpec s ≠ "" := by
  have hne := pySplit_ne_empty s
  unfold extractBreedSpec
  rcases hsp : pySplit s with _ | ⟨w0, ws⟩
  · simp
  · have hw0 : w0 ≠ "" := hne w0 (by rw [hsp]; simp)
    have hjoin : ∀ t : String, w0 ++ " " ++ t ≠ "" := by
      intro t he
      have hd := congrArg String.data he
      rw [strData_append, strData_append] at hd
      have hsp2 : (" " : String).data = [' '] := rfl
      rw [hsp2] at hd
      simp at hd
    dsimp only
    split
    · simpa using hjoin ((w0 :: ws).getD 1 "")
    · simpa using hw0

/-! ## Base64 round trip -/

/-- Decoding the table entry of a sextet gives the sextet back. -/
theorem b64IndexOf_b64CharOf : ∀ n < 64, b64IndexOf (b64CharOf n) = n := by decide

/-- No sextet encodes to the padding character. -/
theorem b64CharOf_ne_pad : ∀ n < 64, b64CharOf n ≠ '=' := by decide

/-- `base64.b64decode` is a left inverse of `base64.b64encode` on byte lists. -/
theorem b64_roundtrip : ∀ l : List Nat, (∀ x ∈ l, x < 256) →
    b64decodeChars (b64encodeBytes l) = l
  | [], _ => rfl
  | [a], h => by
    have ha : a < 256 := h a (by simp)
    have i1 := b64IndexOf_b64CharOf (a / 4) (by omega)
    have i2 := b64IndexOf_b64CharOf (a % 4 * 16) (by omega)
    simp only [b64encodeBytes, b64decodeChars, and_self, if_pos]
    rw [i1, i2]
    simp only [List.cons.injEq, and_true]
    omega
  | [a, b], h => by
    have ha : a < 256 := h a (by simp)
    have hb : b < 256 := h b (by simp)
    have i1 := b64IndexOf_b64CharOf (a / 4) (by omega)
    have i2 := b64IndexOf_b64CharOf (a % 4 * 16 + b / 16) (by omega)
    have i3 := b64IndexOf_b64CharOf (b % 16 * 4) (by omega)
    have n3 := b64CharOf_ne_pad (b % 16 * 4) (by omega)
    simp only [b64encodeBytes, b64decodeChars]
    rw [if_neg (fun hcon => n3 hcon.1), if_true]
    rw [i1, i2, i3]
    simp only [List.cons.injEq, and_true]
    constructor
    · omega
    · omega
  | a :: b :: c :: rest, h => by
    have ha : a < 256 := h a (by simp)
    have hb : b < 256 := h b (by simp)
    have hc : c < 256 := h c (by simp)
    have ih := b64_roundtrip rest (fun x hx => h x (by simp [hx]))
    have i1 := b64IndexOf_b64CharOf (a / 4) (by omega)
    have i2 := b64IndexOf_b64CharOf (a % 4 * 16 + b / 16) (by omega)
    have i3 := b64IndexOf_b64CharOf (b % 16 * 4 + c / 64) (by omega)
    have i4 := b64IndexOf_b64CharOf (c % 64) (by omega)
    have n3 := b64CharOf_ne_pad (b % 16 * 4 + c / 64) (by omega)
    have n4 := b64CharOf_ne_pad (c % 64) (by omega)
    simp only [b64encodeBytes, b64decodeChars]
    rw [if_neg (fun hcon => n3 hcon.1), if_neg n4]
    rw [i1, i2, i3, i4, ih]
    simp only [List.cons.injEq, and_true]
    refine ⟨by omega, by omega, by omega⟩

/-- String-level version of the round trip. -/
theorem b64Str_roundtrip (l : List Nat) (h : ∀ x ∈ l, x < 256) :
    b64decodeStr (b64encodeStr l) = l :=
  b64_roundtrip l h

/-! ## Path lemmas -/

/-- `takeWhile` keeps a satisfying block up to the first failing element. -/
theorem takeWhile_all_append (p : Char → Bool) :
    ∀ (l1 : List Char) (x : Char) (l2 : List Char),
      (∀ a ∈ l1, p a = true) → p x = false →
      (l1 ++ x :: l2).takeWhile p = l1 := by
  intro l1
  induction l1 with
  | nil =>
    intro x l2 _ hx
    simp [List.takeWhile_cons, hx]
  | cons a as ih =>
    intro x l2 hall hx
    have ha : p a = true := hall a (by simp)
    simp [List.takeWhile_cons, ha,
      ih x l2 (fun b hb => hall b (by simp [hb])) hx]

/-- The file-name component of a joined path is the joined name, provided the
name contains no slash. -/
theorem fileNameOf_joinPath (dir n : String)
    (h : ∀ c ∈ n.data, c ≠ '/') : fileNameOf (joinPath dir n) = n := by
  unfold fileNameOf joinPath
  rw [strData_append, strData_append]
  have hsl : ("/" : String).data = ['/'] := rfl
  rw [hsl, List.reverse_append, List.reverse_append]
  have hrev : (['/'] : List Char).reverse = ['/'] := rfl
  rw [hrev]
  have hstep : ((['/'] : List Char) ++ dir.data.reverse) = '/' :: dir.data.reverse := rfl
  rw [hstep]
  rw [takeWhile_all_append _ _ '/' dir.data.reverse ?hall ?hx]
  case hall =>
    intro a hamem
    simpa using h a (List.mem_reverse.mp hamem)
  case hx => simp
  rw [List.reverse_reverse]

/-- Joining distinct names under the same directory gives distinct paths. -/
theorem joinPath_ne (dir a b : String) (hab : a ≠ b) :
    joinPath dir a ≠ joinPath dir b := by
  intro h
  apply hab
  have hd := congrArg String.data h
  unfold joinPath at hd
  rw [strData_append, strData_append, strData_append, strData_append] at hd
  exact strData_inj (List.append_cancel_left hd)

/-! ## Claim C6 -/

/-- C6: `extract_dog_breed` equals the stated reference algorithm on every
input string: split on whitespace; if two or more tokens exist and (the second
token starts uppercase or there are exactly two tokens) return the first two
tokens joined by one space; otherwise the first token if any; otherwise the
fallback label "dog".  Trailing punctuation is retained. -/
theorem extract_dog_breed_matches_reference (s : String) :
    extract_dog_breed s = some (extractBreedSpec s) :=
  extract_eq_spec s

/-! ## Claim C7 (corrected) -/

/-- C7 counterexample: on the classifier output "Beagle with floppy ears" the
code does NOT return "Beagle with" — the second token "with" is lowercase and
there are four tokens, so the single-token branch runs. -/
theorem beagle_with_counterexample :
    extract_dog_breed "Beagle with floppy ears" ≠ some "Beagle with" := by
  decide

/-- C7 amended: `extract_dog_breed "Beagle with floppy ears"` returns
"Beagle" (the first token alone). -/
theorem beagle_with_amended :
    extract_dog_breed "Beagle with floppy ears" = some "Beagle" := by
  decide

/-! ## Claim C8 -/

/-- C8: on every input string `extract_dog_breed` terminates normally with a
value (never the `none` that models an `IndexError`; the second-token
inspection is in bounds because whitespace splitting yields no empty tokens),
and the returned label is never the empty string. -/
theorem extract_dog_breed_total_nonempty (s : String) :
    ∃ r, extract_dog_breed s = some r ∧ r ≠ "" :=
  ⟨extractBreedSpec s, extract_eq_spec s, extractBreedSpec_ne_empty s⟩

/-! ## Claim C1 -/

/-- C1: for every execution of `generate_progressive_images` the three
generation stages are issued strictly sequentially, and if Stage n raises or
yields no valid image payload the Stage n+1 call is never issued: the request
trace stops at Stage n, each request is issued exactly once (no retry), and
the failure propagates to the caller. -/
theorem chain_sequential_abort (oracle : Request → Except String Response)
    (img : List Nat) (breed : String) (d : Option String) (fs : FS) :
    (∀ e, oracle (stage1Req (b64encodeStr img) breed) = .error e →
      generate_progressive_images oracle img breed d fs
        = ([stage1Req (b64encodeStr img) breed], .error (.fromApi e)))
  ∧ (∀ r1, oracle (stage1Req (b64encodeStr img) breed) = .ok r1 →
      extractImages r1.output = [] →
      generate_progressive_images oracle img breed d fs
        = ([stage1Req (b64encodeStr img) breed], .error (.noImage 1)))
  ∧ (∀ r1 p1 t1 e, oracle (stage1Req (b64encodeStr img) breed) = .ok r1 →
      extractImages r1.output = p1 :: t1 →
      oracle (stage2Req breed r1.id) = .error e →
      generate_progressive_images oracle img breed d fs
        = ([stage1Req (b64encodeStr img) breed, stage2Req breed r1.id],
           .error (.fromApi e)))
  ∧ (∀ r1 p1 t1 r2, oracle (stage1Req (b64encodeStr img) breed) = .ok r1 →
      extractImages r1.output = p1 :: t1 →
      oracle (stage2Req breed r1.id) = .ok r2 →
      extractImages r2.output = [] →
      generate_progressive_images oracle img breed d fs
        = ([stage1Req (b64encodeStr img) breed, stage2Req breed r1.id],
           .error (.noImage 2)))
  ∧ (∀ r1 p1 t1 r2 p2 t2 e, oracle (stage1Req (b64encodeStr img) breed) = .ok r1 →
      extractImages r1.output = p1 :: t1 →
      oracle (stage2Req breed r1.id) = .ok r2 →
      extractImages r2.output = p2 :: t2 →
      oracle (stage3Req breed r2.id) = .error e →
      generate_progressive_images oracle img breed d fs
        = ([stage1Req (b64encodeStr img) breed, stage2Req breed r1.id,
            stage3Req breed r2.id], .error (.fromApi e)))
  ∧ (∀ r1 p1 t1 r2 p2 t2 r3, oracle (stage1Req (b64encodeStr img) breed) = .ok r1 →
      extractImages r1.output = p1 :: t1 →
      oracle (stage2Req breed r1.id) = .ok r2 →
      extractImages r2.output = p2 :: t2 →
      oracle (stage3Req breed r2.id) = .ok r3 →
      extractImages r3.output = [] →
      generate_progressive_images oracle img breed d fs
        = ([stage1Req (b64encodeStr img) breed, stage2Req breed r1.id,
            stage3Req breed r2.id], .error (.noImage 3))) := by
  refine ⟨?_, ?_, ?_, ?_, ?_, ?_⟩
  · intro e h1
    simp [generate_progressive_images, h1]
  · intro r1 h1 hx1
    simp [generate_progressive_images, h1, hx1]
  · intro r1 p1 t1 e h1 hx1 h2
    simp [generate_progressive_images, h1, hx1, h2]
  · intro r1 p1 t1 r2 h1 hx1 h2 hx2
    simp [generate_progressive_images, h1, hx1, h2, hx2]
  · intro r1 p1 t1 r2 p2 t2 e h1 hx1 h2 hx2 h3
    simp [generate_progressive_images, h1, hx1, h2, hx2, h3]
  · intro r1 p1 t1 r2 p2 t2 r3 h1 hx1 h2 hx2 h3 hx3
    simp [generate_progressive_images, h1, hx1, h2, hx2, h3, hx3]

/-- C1 witness: each abort mode, exercised on a concrete oracle. -/
theorem chain_sequential_abort_witness :
    generate_progressive_images oracleAllErr [] "Poodle" none fs0
      = ([stage1Req (b64encodeStr []) "Poodle"], .error (.fromApi "boom"))
  ∧ generate_progressive_images oracleNoImg1 [] "Poodle" none fs0
      = ([stage1Req (b64encodeStr []) "Poodle"], .error (.noImage 1))
  ∧ generate_progressive_images oracleErr2 [] "Poodle" none fs0
      = ([stage1Req (b64encodeStr []) "Poodle", stage2Req "Poodle" "r1"],
         .error (.fromApi "boom2"))
  ∧ generate_progressive_images oracleNoImg2 [] "Poodle" none fs0
      = ([stage1Req (b64encodeStr []) "Poodle", stage2Req "Poodle" "r1"],
         .error (.noImage 2))
  ∧ generate_progressive_images oracleErr3 [] "Poodle" none fs0
      = ([stage1Req (b64encodeStr []) "Poodle", stage2Req "Poodle" "r1",
          stage3Req "Poodle" "r2"], .error (.fromApi "boom3"))
  ∧ generate_progressive_images oracleNoImg3 [] "Poodle" none fs0
      = ([stage1Req (b64encodeStr []) "Poodle", stage2Req "Poodle" "r1",
          stage3Req "Poodle" "r2"], .error (.noImage 3)) := by
  refine ⟨?_, ?_, ?_, ?_, ?_, ?_⟩
  · exact (chain_sequential_abort oracleAllErr [] "Poodle" none fs0).1 "boom" rfl
  · exact (chain_sequential_abort oracleNoImg1 [] "Poodle" none fs0).2.1
      (respNoItem "r1") rfl rfl
  · exact (chain_sequential_abort oracleErr2 [] "Poodle" none fs0).2.2.1
      (respOk "r1" "P1") "P1" [] "boom2" rfl rfl rfl
  · exact (chain_sequential_abort oracleNoImg2 [] "Poodle" none fs0).2.2.2.1
      (respOk "r1" "P1") "P1" [] (respNoItem "r2") rfl rfl rfl rfl
  · exact (chain_sequential_abort oracleErr3 [] "Poodle" none fs0).2.2.2.2.1
      (respOk "r1" "P1") "P1" [] (respOk "r2" "P2") "P2" [] "boom3"
      rfl rfl rfl rfl rfl
  · exact (chain_sequential_abort oracleNoImg3 [] "Poodle" none fs0).2.2.2.2.2
      (respOk "r1" "P1") "P1" [] (respOk "r2" "P2") "P2" [] (respNoItem "r3")
      rfl rfl rfl rfl rfl rfl

/-! ## Claim C2 (corrected) -/

/-- `extractImages` is empty exactly when no output item passes the filter. -/
theorem extractImages_eq_nil_iff (outputs : List OutputItem) :
    extractImages outputs = [] ↔ outputs.filter isImageCall = [] := by
  unfold extractImages
  simp

/-- C2 (amended): when the chain reaches Stage n's call and that call returns
a response, the run fails with the stage-numbered generation failure EXACTLY
when the response holds zero output items that are tagged
`image_generation_call` and possess a `result` attribute — presence of the
attribute suffices, the payload may be empty; the failure message carries the
stage number. -/
theorem stage_failure_iff_result_attr (oracle : Request → Except String Response)
    (img : List Nat) (breed : String) (d : Option String) (fs : FS) :
    (∀ r1, oracle (stage1Req (b64encodeStr img) breed) = .ok r1 →
      ((generate_progressive_images oracle img breed d fs).2 = .error (.noImage 1)
        ↔ r1.output.filter isImageCall = []))
  ∧ (∀ r1 p1 t1 r2, oracle (stage1Req (b64encodeStr img) breed) = .ok r1 →
      extractImages r1.output = p1 :: t1 →
      oracle (stage2Req breed r1.id) = .ok r2 →
      ((generate_progressive_images oracle img breed d fs).2 = .error (.noImage 2)
        ↔ r2.output.filter isImageCall = []))
  ∧ (∀ r1 p1 t1 r2 p2 t2 r3, oracle (stage1Req (b64encodeStr img) breed) = .ok r1 →
      extractImages r1.output = p1 :: t1 →
      oracle (stage2Req breed r1.id) = .ok r2 →
      extractImages r2.output = p2 :: t2 →
      oracle (stage3Req breed r2.id) = .ok r3 →
      ((generate_progressive_images oracle img breed d fs).2 = .error (.noImage 3)
        ↔ r3.output.filter isImageCall = []))
  ∧ (∀ n : Nat, (PipeError.noImage n).message
        = "Failed to generate image " ++ toString n) := by
  refine ⟨?_, ?_, ?_, fun n => rfl⟩
  · intro r1 h1
    rcases hx1 : extractImages r1.output with _ | ⟨p1, t1⟩
    · constructor
      · intro _
        exact (extractImages_eq_nil_iff _).mp hx1
      · intro _
        simp [generate_progressive_images, h1, hx1]
    · have hRfalse : r1.output.filter isImageCall ≠ [] := by
        intro hf
        have h0 := (extractImages_eq_nil_iff r1.output).mpr hf
        rw [h0] at hx1
        simp at hx1
      constructor
      · intro hL
        exfalso
        rcases h2 : oracle (stage2Req breed r1.id) with e2 | r2
        · simp [generate_progressive_images, h1, hx1, h2] at hL
        · rcases hx2 : extractImages r2.output with _ | ⟨p2, t2⟩
          · simp [generate_progressive_images, h1, hx1, h2, hx2] at hL
          · rcases h3 : oracle (stage3Req breed r2.id) with e3 | r3
            · simp [generate_progressive_images, h1, hx1, h2, hx2, h3] at hL
            · rcases hx3 : extractImages r3.output with _ | ⟨p3, t3⟩
              · simp [generate_progressive_images, h1, hx1, h2, hx2, h3, hx3] at hL
              · rcases d with _ | dir
                · simp [generate_progressive_images, h1, hx1, h2, hx2, h3, hx3] at hL
                · simp [generate_progressive_images, h1, hx1, h2, hx2, h3, hx3] at hL
      · intro hR
        exact absurd hR hRfalse
  · intro r1 p1 t1 r2 h1 hx1 h2
    rcases hx2 : extractImages r2.output with _ | ⟨p2, t2⟩
    · constructor
      · intro _
        exact (extractImages_eq_nil_iff _).mp hx2
      · intro _
        simp [generate_progressive_images, h1, hx1, h2, hx2]
    · have hRfalse : r2.output.filter isImageCall ≠ [] := by
        intro hf
        have h0 := (extractImages_eq_nil_iff r2.output).mpr hf
        rw [h0] at hx2
        simp at hx2
      constructor
      · intro hL
        exfalso
        rcases h3 : oracle (stage3Req breed r2.id) with e3 | r3
        · simp [generate_progressive_images, h1, hx1, h2, hx2, h3] at hL
        · rcases hx3 : extractImages r3.output with _ | ⟨p3, t3⟩
          · simp [generate_progressive_images, h1, hx1, h2, hx2, h3, hx3] at hL
          · rcases d with _ | dir
            · simp [generate_progressive_images, h1, hx1, h2, hx2, h3, hx3] at hL
            · simp [generate_progressive_images, h1, hx1, h2, hx2, h3, hx3] at hL
      · intro hR
        exact absurd hR hRfalse
  · intro r1 p1 t1 r2 p2 t2 r3 h1 hx1 h2 hx2 h3
    rcases hx3 : extractImages r3.output with _ | ⟨p3, t3⟩
    · constructor
      · intro _
        exact (extractImages_eq_nil_iff _).mp hx3
      · intro _
        simp [generate_progressive_images, h1, hx1, h2, hx2, h3, hx3]
    · have hRfalse : r3.output.filter isImageCall ≠ [] := by
        intro hf
        have h0 := (extractImages_eq_nil_iff r3.output).mpr hf
        rw [h0] at hx3
        simp at hx3
      constructor
      · intro hL
        exfalso
        rcases d with _ | dir
        · simp [generate_progressive_images, h1, hx1, h2, hx2, h3, hx3] at hL
        · simp [generate_progressive_images, h1, hx1, h2, hx2, h3, hx3] at hL
      · intro hR
        exact absurd hR hRfalse

/-- C2 witness: each stage-numbered failure criterion exercised on a concrete
oracle. -/
theorem stage_failure_iff_result_attr_witness :
    ((generate_progressive_images oracleNoImg1 [] "Poodle" none fs0).2
        = .error (.noImage 1) ↔ (respNoItem "r1").output.filter isImageCall = [])
  ∧ ((generate_progressive_images oracleNoImg2 [] "Poodle" none fs0).2
        = .error (.noImage 2) ↔ (respNoItem "r2").output.filter isImageCall = [])
  ∧ ((generate_progressive_images oracleNoImg3 [] "Poodle" none fs0).2
        = .error (.noImage 3) ↔ (respNoItem "r3").output.filter isImageCall = [])
  ∧ (PipeError.noImage 2).message = "Failed to generate image " ++ toString 2 := by
  refine ⟨?_, ?_, ?_, ?_⟩
  · exact (stage_failure_iff_result_attr oracleNoImg1 [] "Poodle" none fs0).1
      (respNoItem "r1") rfl
  · exact (stage_failure_iff_result_attr oracleNoImg2 [] "Poodle" none fs0).2.1
      (respOk "r1" "P1") "P1" [] (respNoItem "r2") rfl rfl rfl
  · exact (stage_failure_iff_result_attr oracleNoImg3 [] "Poodle" none fs0).2.2.1
      (respOk "r1" "P1") "P1" [] (respOk "r2" "P2") "P2" [] (respNoItem "r3")
      rfl rfl rfl rfl rfl
  · exact (stage_failure_iff_result_attr oracleAllOk [] "Poodle" none fs0).2.2.2 2

/-- C2 counterexample: Stage 1's response holds ZERO image-generation items
with a non-empty payload (its only matching item carries the empty string),
so the claim demands the stage-1 failure; but the code accepts the item —
only the presence of the `result` attribute is checked — and the whole run
succeeds with empty payloads. -/
theorem stage_failure_nonempty_counterexample :
    ((respEmptyPayload "r1").output.filter
        (fun o => isImageCall o && o.result != "") = [])
  ∧ (generate_progressive_images oracleEmptyPayload [] "Poodle" none fs0).2
      = .ok ({ dirs := [],
               files := [("image3_final_dog.png", []),
                         ("image2_transition.png", []),
                         ("image1_transition.png", [])] },
             [("image1_transition.png", ""), ("image2_transition.png", ""),
              ("image3_final_dog.png", "")]) :=
  ⟨by decide, by decide⟩

/-! ## Claim C3 -/

/-- C3: a successful run issued exactly three generation requests: the Stage 1
request carries the base64-encoded source image and no continuation reference;
the Stage 2 and Stage 3 requests carry only a text prompt plus the response
identifier of the immediately preceding stage and the edit-action
image-generation tool, with no image attached. -/
theorem successful_run_request_shapes (oracle : Request → Except String Response)
    (img : List Nat) (breed : String) (d : Option String) (fs : FS)
    (tr : List Request) (out : FS × List (String × String))
    (h : generate_progressive_images oracle img breed d fs = (tr, .ok out)) :
    ∃ r1 r2,
      oracle (stage1Req (b64encodeStr img) breed) = .ok r1
    ∧ oracle (stage2Req breed r1.id) = .ok r2
    ∧ tr = [stage1Req (b64encodeStr img) breed, stage2Req breed r1.id,
            stage3Req breed r2.id]
    ∧ (stage1Req (b64encodeStr img) breed).previous_response_id = none
    ∧ (stage1Req (b64encodeStr img) breed).inputImage
        = some (dataUri (b64encodeStr img))
    ∧ (stage2Req breed r1.id).previous_response_id = some r1.id
    ∧ (stage2Req breed r1.id).inputImage = none
    ∧ (stage2Req breed r1.id).toolType = "image_generation"
    ∧ (stage2Req breed r1.id).toolAction = "edit"
    ∧ (stage3Req breed r2.id).previous_response_id = some r2.id
    ∧ (stage3Req breed r2.id).inputImage = none
    ∧ (stage3Req breed r2.id).toolType = "image_generation"
    ∧ (stage3Req breed r2.id).toolAction = "edit" := by
  rcases h1 : oracle (stage1Req (b64encodeStr img) breed) with e1 | r1
  · simp [generate_progressive_images, h1] at h
  · rcases hx1 : extractImages r1.output with _ | ⟨p1, t1⟩
    · simp [generate_progressive_images, h1, hx1] at h
    · rcases h2 : oracle (stage2Req breed r1.id) with e2 | r2
      · simp [generate_progressive_images, h1, hx1, h2] at h
      · rcases hx2 : extractImages r2.output with _ | ⟨p2, t2⟩
        · simp [generate_progressive_images, h1, hx1, h2, hx2] at h
        · rcases h3 : oracle (stage3Req breed r2.id) with e3 | r3
          · simp [generate_progressive_images, h1, hx1, h2, hx2, h3] at h
          · rcases hx3 : extractImages r3.output with _ | ⟨p3, t3⟩
            · simp [generate_progressive_images, h1, hx1, h2, hx2, h3, hx3] at h
            · rcases d with _ | dir
              · simp [generate_progressive_images, h1, hx1, h2, hx2, h3, hx3] at h
                exact ⟨r1, r2, rfl, h2, h.1.symm, rfl, rfl, rfl, rfl, rfl, rfl,
                  rfl, rfl, rfl, rfl⟩
              · simp [generate_progressive_images, h1, hx1, h2, hx2, h3, hx3] at h
                exact ⟨r1, r2, rfl, h2, h.1.symm, rfl, rfl, rfl, rfl, rfl, rfl,
                  rfl, rfl, rfl, rfl⟩

/-- C3 witness. -/
theorem successful_run_request_shapes_witness :
    ∃ r1 r2,
      oracleAllOk (stage1Req (b64encodeStr []) "Poodle") = .ok r1
    ∧ oracleAllOk (stage2Req "Poodle" r1.id) = .ok r2
    ∧ [stage1Req (b64encodeStr []) "Poodle", stage2Req "Poodle" "r1",
       stage3Req "Poodle" "r2"]
        = [stage1Req (b64encodeStr []) "Poodle", stage2Req "Poodle" r1.id,
           stage3Req "Poodle" r2.id]
    ∧ (stage1Req (b64encodeStr []) "Poodle").previous_response_id = none
    ∧ (stage1Req (b64encodeStr []) "Poodle").inputImage
        = some (dataUri (b64encodeStr []))
    ∧ (stage2Req "Poodle" r1.id).previous_response_id = some r1.id
    ∧ (stage2Req "Poodle" r1.id).inputImage = none
    ∧ (stage2Req "Poodle" r1.id).toolType = "image_generation"
    ∧ (stage2Req "Poodle" r1.id).toolAction = "edit"
    ∧ (stage3Req "Poodle" r2.id).previous_response_id = some r2.id
    ∧ (stage3Req "Poodle" r2.id).inputImage = none
    ∧ (stage3Req "Poodle" r2.id).toolType = "image_generation"
    ∧ (stage3Req "Poodle" r2.id).toolAction = "edit" :=
  successful_run_request_shapes oracleAllOk [] "Poodle" none fs0 _ _ rfl

/-! ## Claim C4 -/

/-- C4: a successful run returns a manifest of exactly three
(path, encoded payload) pairs in stage order, whose file names are exactly
`image1_transition.png`, `image2_transition.png` and `image3_final_dog.png`
(prefixed by the output directory when one was supplied). -/
theorem successful_run_manifest (oracle : Request → Except String Response)
    (img : List Nat) (breed : String) (d : Option String) (fs : FS)
    (tr : List Request) (out : FS × List (String × String))
    (h : generate_progressive_images oracle img breed d fs = (tr, .ok out)) :
    ∃ p1 p2 p3,
      out.2 = [(outPath d "image1_transition.png", p1),
               (outPath d "image2_transition.png", p2),
               (outPath d "image3_final_dog.png", p3)]
    ∧ fileNameOf (outPath d "image1_transition.png") = "image1_transition.png"
    ∧ fileNameOf (outPath d "image2_transition.png") = "image2_transition.png"
    ∧ fileNameOf (outPath d "image3_final_dog.png") = "image3_final_dog.png" := by
  have hn1 : fileNameOf (outPath d "image1_transition.png")
      = "image1_transition.png" := by
    rcases d with _ | dir
    · decide
    · exact fileNameOf_joinPath dir _ (by decide)
  have hn2 : fileNameOf (outPath d "image2_transition.png")
      = "image2_transition.png" := by
    rcases d with _ | dir
    · decide
    · exact fileNameOf_joinPath dir _ (by decide)
  have hn3 : fileNameOf (outPath d "image3_final_dog.png")
      = "image3_final_dog.png" := by
    rcases d with _ | dir
    · decide
    · exact fileNameOf_joinPath dir _ (by decide)
  rcases h1 : oracle (stage1Req (b64encodeStr img) breed) with e1 | r1
  · simp [generate_progressive_images, h1] at h
  · rcases hx1 : extractImages r1.output with _ | ⟨p1, t1⟩
    · simp [generate_progressive_images, h1, hx1] at h
    · rcases h2 : oracle (stage2Req breed r1.id) with e2 | r2
      · simp [generate_progressive_images, h1, hx1, h2] at h
      · rcases hx2 : extractImages r2.output with _ | ⟨p2, t2⟩
        · simp [generate_progressive_images, h1, hx1, h2, hx2] at h
        · rcases h3 : oracle (stage3Req breed r2.id) with e3 | r3
          · simp [generate_progressive_images, h1, hx1, h2, hx2, h3] at h
          · rcases hx3 : extractImages r3.output with _ | ⟨p3, t3⟩
            · simp [generate_progressive_images, h1, hx1, h2, hx2, h3, hx3] at h
            · refine ⟨p1, p2, p3, ?_, hn1, hn2, hn3⟩
              rcases d with _ | dir
              · simp [generate_progressive_images, h1, hx1, h2, hx2, h3, hx3,
                  save_files, writeFile] at h
                rw [← h.2]
                simp [outPath]
              · simp [generate_progressive_images, h1, hx1, h2, hx2, h3, hx3,
                  save_files, writeFile] at h
                rw [← h.2]
                simp [outPath]

/-- C4 witness. -/
theorem successful_run_manifest_witness :
    ∃ p1 p2 p3,
      ([("image1_transition.png", "P1"), ("image2_transition.png", "P2"),
        ("image3_final_dog.png", "P3")] : List (String × String))
        = [(outPath none "image1_transition.png", p1),
           (outPath none "image2_transition.png", p2),
           (outPath none "image3_final_dog.png", p3)]
    ∧ fileNameOf (outPath none "image1_transition.png") = "image1_transition.png"
    ∧ fileNameOf (outPath none "image2_transition.png") = "image2_transition.png"
    ∧ fileNameOf (outPath none "image3_final_dog.png") = "image3_final_dog.png" :=
  successful_run_manifest oracleAllOk [] "Poodle" none fs0 _
    ({ dirs := [], files := [("image3_final_dog.png", []),
        ("image2_transition.png", []), ("image1_transition.png", [])] },
     [("image1_transition.png", "P1"), ("image2_transition.png", "P2"),
      ("image3_final_dog.png", "P3")]) rfl

/-! ## Claim C10 -/

/-- C10: when a stage's response holds two or more matching output items, the
stage's manifest entry uses the payload of the FIRST matching item in
response-list order; the later matching items do not appear. -/
theorem stage_uses_first_matching_item (oracle : Request → Except String Response)
    (img : List Nat) (breed : String) (d : Option String) (fs : FS)
    (r1 r2 r3 : Response) (i1 i2 i3 : OutputItem) (t1 t2 t3 : List OutputItem)
    (h1 : oracle (stage1Req (b64encodeStr img) breed) = .ok r1)
    (hf1 : r1.output.filter isImageCall = i1 :: t1) (_hm1 : t1 ≠ [])
    (h2 : oracle (stage2Req breed r1.id) = .ok r2)
    (hf2 : r2.output.filter isImageCall = i2 :: t2) (_hm2 : t2 ≠ [])
    (h3 : oracle (stage3Req breed r2.id) = .ok r3)
    (hf3 : r3.output.filter isImageCall = i3 :: t3) (_hm3 : t3 ≠ []) :
    ∃ fs2, generate_progressive_images oracle img breed d fs
      = ([stage1Req (b64encodeStr img) breed, stage2Req breed r1.id,
          stage3Req breed r2.id],
         .ok (fs2, [(outPath d "image1_transition.png", i1.result),
                    (outPath d "image2_transition.png", i2.result),
                    (outPath d "image3_final_dog.png", i3.result)])) := by
  have hx1 : extractImages r1.output = i1.result :: t1.map OutputItem.result := by
    unfold extractImages
    rw [hf1]
    rfl
  have hx2 : extractImages r2.output = i2.result :: t2.map OutputItem.result := by
    unfold extractImages
    rw [hf2]
    rfl
  have hx3 : extractImages r3.output = i3.result :: t3.map OutputItem.result := by
    unfold extractImages
    rw [hf3]
    rfl
  rcases d with _ | dir
  · refine ⟨(save_files (fun n => n) fs
      [("image1_transition.png", i1.result), ("image2_transition.png", i2.result),
       ("image3_final_dog.png", i3.result)]).1, ?_⟩
    simp [generate_progressive_images, h1, hx1, h2, hx2, h3, hx3,
      save_files, writeFile, outPath]
  · refine ⟨(save_files (joinPath dir) (makedirs fs dir)
      [("image1_transition.png", i1.result), ("image2_transition.png", i2.result),
       ("image3_final_dog.png", i3.result)]).1, ?_⟩
    simp [generate_progressive_images, h1, hx1, h2, hx2, h3, hx3,
      save_files, writeFile, outPath]

/-- C10 witness: every stage's response carries two matching items; the first
payloads are used. -/
theorem stage_uses_first_matching_item_witness :
    ∃ fs2, generate_progressive_images oracleTwoItems [] "Poodle" none fs0
      = ([stage1Req (b64encodeStr []) "Poodle", stage2Req "Poodle" "r1",
          stage3Req "Poodle" "r2"],
         .ok (fs2, [(outPath none "image1_transition.png",
                      (imgItem "P1a").result),
                    (outPath none "image2_transition.png",
                      (imgItem "P2a").result),
                    (outPath none "image3_final_dog.png",
                      (imgItem "P3a").result)])) :=
  stage_uses_first_matching_item oracleTwoItems [] "Poodle" none fs0
    (respTwo "r1" "P1a" "P1b") (respTwo "r2" "P2a" "P2b") (respTwo "r3" "P3a" "P3b")
    (imgItem "P1a") (imgItem "P2a") (imgItem "P3a")
    [imgItem "P1b"] [imgItem "P2b"] [imgItem "P3b"]
    rfl rfl (by decide) rfl rfl (by decide) rfl rfl (by decide)

/-! ## Claim C5 -/

/-- C5: the persistence step creates the output directory if it does not
exist (idempotently), writes under it one file per pair whose byte content is
the base64-decoding of the pair's payload (and decoding inverts encoding
exactly on byte lists), and returns the (destination path, original encoded
payload) pairs in stage order. -/
theorem persist_writes_decoded_files (fs : FS) (dir f1 f2 f3 p1 p2 p3 : String)
    (h12 : f1 ≠ f2) (h13 : f1 ≠ f3) (h23 : f2 ≠ f3) :
    dir ∈ (makedirs fs dir).dirs
  ∧ makedirs (makedirs fs dir) dir = makedirs fs dir
  ∧ (save_files (joinPath dir) (makedirs fs dir)
      [(f1, p1), (f2, p2), (f3, p3)]).1.files.lookup (joinPath dir f1)
      = some (b64decodeStr p1)
  ∧ (save_files (joinPath dir) (makedirs fs dir)
      [(f1, p1), (f2, p2), (f3, p3)]).1.files.lookup (joinPath dir f2)
      = some (b64decodeStr p2)
  ∧ (save_files (joinPath dir) (makedirs fs dir)
      [(f1, p1), (f2, p2), (f3, p3)]).1.files.lookup (joinPath dir f3)
      = some (b64decodeStr p3)
  ∧ (save_files (joinPath dir) (makedirs fs dir)
      [(f1, p1), (f2, p2), (f3, p3)]).2
      = [(joinPath dir f1, p1), (joinPath dir f2, p2), (joinPath dir f3, p3)]
  ∧ (∀ bytes : List Nat, (∀ x ∈ bytes, x < 256) →
      b64decodeStr (b64encodeStr bytes) = bytes) := by
  have hmem : dir ∈ (makedirs fs dir).dirs := by
    by_cases hd : dir ∈ fs.dirs
    · simp [makedirs, hd]
    · simp [makedirs, hd]
  have hidem : makedirs (makedirs fs dir) dir = makedirs fs dir := by
    have h := hmem
    generalize makedirs fs dir = g at h ⊢
    unfold makedirs
    rw [if_pos h]
  have q12 : (joinPath dir f1 == joinPath dir f2) = false :=
    beq_eq_false_iff_ne.mpr (joinPath_ne dir f1 f2 h12)
  have q13 : (joinPath dir f1 == joinPath dir f3) = false :=
    beq_eq_false_iff_ne.mpr (joinPath_ne dir f1 f3 h13)
  have q23 : (joinPath dir f2 == joinPath dir f3) = false :=
    beq_eq_false_iff_ne.mpr (joinPath_ne dir f2 f3 h23)
  refine ⟨hmem, hidem, ?_, ?_, ?_, ?_,
    fun bytes hb => b64Str_roundtrip bytes hb⟩
  · simp [save_files, writeFile, List.lookup, q12, q13]
  · simp [save_files, writeFile, List.lookup, q23]
  · simp [save_files, writeFile, List.lookup]
  · simp [save_files, writeFile]

/-- C5 witness: the three real file names with small base64 payloads in a
fresh directory. -/
theorem persist_writes_decoded_files_witness :
    "out" ∈ (makedirs fs0 "out").dirs
  ∧ makedirs (makedirs fs0 "out") "out" = makedirs fs0 "out"
  ∧ (save_files (joinPath "out") (makedirs fs0 "out")
      [("image1_transition.png", "QQ=="), ("image2_transition.png", "QkI="),
       ("image3_final_dog.png", "Q0ND")]).1.files.lookup
      (joinPath "out" "image1_transition.png") = some (b64decodeStr "QQ==")
  ∧ (save_files (joinPath "out") (makedirs fs0 "out")
      [("image1_transition.png", "QQ=="), ("image2_transition.png", "QkI="),
       ("image3_final_dog.png", "Q0ND")]).1.files.lookup
      (joinPath "out" "image2_transition.png") = some (b64decodeStr "QkI=")
  ∧ (save_files (joinPath "out") (makedirs fs0 "out")
      [("image1_transition.png", "QQ=="), ("image2_transition.png", "QkI="),
       ("image3_final_dog.png", "Q0ND")]).1.files.lookup
      (joinPath "out" "image3_final_dog.png") = some (b64decodeStr "Q0ND")
  ∧ (save_files (joinPath "out") (makedirs fs0 "out")
      [("image1_transition.png", "QQ=="), ("image2_transition.png", "QkI="),
       ("image3_final_dog.png", "Q0ND")]).2
      = [(joinPath "out" "image1_transition.png", "QQ=="),
         (joinPath "out" "image2_transition.png", "QkI="),
         (joinPath "out" "image3_final_dog.png", "Q0ND")]
  ∧ (∀ bytes : List Nat, (∀ x ∈ bytes, x < 256) →
      b64decodeStr (b64encodeStr bytes) = bytes) :=
  persist_writes_decoded_files fs0 "out" "image1_transition.png"
    "image2_transition.png" "image3_final_dog.png" "QQ==" "QkI=" "Q0ND"
    (by decide) (by decide) (by decide)

/-! ## Claim C9 (corrected) -/

/-- C9 counterexample: the `analyze_dog_breed` of `analyze_dog_breed.py`
returns a NORMAL value when the underlying file read or remote call fails —
the error text, not a raised error — contradicting the claim for that
definition of the classifier. -/
theorem classify_error_counterexample :
    analyze_dog_breed_standalone (.error "open failed") classifyOracleErr
      = ([], "Error: open failed")
  ∧ analyze_dog_breed_standalone (.ok []) classifyOracleErr
      = ([classifyRequest (b64encodeStr [])], "Error: connection refused") :=
  ⟨rfl, rfl⟩

/-- C9 (amended): the pipeline's classifier
(`analyze_dog_breed` in generate_transformation.py) raises an error wrapping
any underlying file or endpoint failure, issuing at most one request with no
retry; the standalone script's copy (analyze_dog_breed.py) instead catches
the failure and returns the error text as a normal value. -/
theorem classify_failure_propagation (readImage : Except String (List Nat))
    (oracle : ClassifyRequest → Except String String) :
    (∀ e, readImage = .error e →
      analyze_dog_breed readImage oracle
        = ([], .error ("Error analyzing dog breed: " ++ e)))
  ∧ (∀ bs e, readImage = .ok bs →
      oracle (classifyRequest (b64encodeStr bs)) = .error e →
      analyze_dog_breed readImage oracle
        = ([classifyRequest (b64encodeStr bs)],
           .error ("Error analyzing dog breed: " ++ e)))
  ∧ (∀ e, readImage = .error e →
      analyze_dog_breed_standalone readImage oracle = ([], "Error: " ++ e))
  ∧ (∀ bs e, readImage = .ok bs →
      oracle (classifyRequest (b64encodeStr bs)) = .error e →
      analyze_dog_breed_standalone readImage oracle
        = ([classifyRequest (b64encodeStr bs)], "Error: " ++ e)) := by
  refine ⟨?_, ?_, ?_, ?_⟩
  · intro e he
    simp [analyze_dog_breed, he]
  · intro bs e he ho
    simp [analyze_dog_breed, he, ho]
  · intro e he
    simp [analyze_dog_breed_standalone, he]
  · intro bs e he ho
    simp [analyze_dog_breed_standalone, he, ho]

/-- C9 witness. -/
theorem classify_failure_propagation_witness :
    analyze_dog_breed (.error "open failed") classifyOracleErr
      = ([], .error ("Error analyzing dog breed: " ++ "open failed"))
  ∧ analyze_dog_breed (.ok []) classifyOracleErr
      = ([classifyRequest (b64encodeStr [])],
         .error ("Error analyzing dog breed: " ++ "connection refused")) :=
  ⟨(classify_failure_propagation (.error "open failed") classifyOracleErr).1
      "open failed" rfl,
   (classify_failure_propagation (.ok []) classifyOracleErr).2.1
      [] "connection refused" rfl rfl⟩
